import Mathlib

/- Shallow embedding of the Identity Resolution & Conversation Routing Engine
   of the communication-tool repository.  Pure data is translated directly;
   the DynamoDB-backed stores are modelled as in-memory lists with put-upsert
   semantics; generated uuids and clock reads are passed in as explicit
   arguments; thrown exceptions become Except String; the external Lark and
   channel-provider network calls become explicit oracle arguments describing
   the outcome the network would produce. -/

set_option maxHeartbeats 1000000
set_option maxRecDepth 8000

namespace CommTool

/-- Channel enumeration from src/types/channel.ts (ChannelType). -/
inductive ChannelType where
  | line | sms | whatsapp | email | webchat | facebook | instagram | linkedin
  deriving DecidableEq, Repr

/-- Provider tags from src/types/channel.ts (ChannelProvider). -/
inductive ChannelProvider where
  | twilio | meta | linkedin | direct
  deriving DecidableEq, Repr

/-- Static channel-to-provider table CHANNEL_PROVIDERS from src/types/channel.ts. -/
def CHANNEL_PROVIDERS : ChannelType → ChannelProvider
  | .line => .twilio
  | .sms => .twilio
  | .whatsapp => .twilio
  | .webchat => .twilio
  | .email => .direct
  | .facebook => .meta
  | .instagram => .meta
  | .linkedin => .linkedin

/-- The string value of each channel tag (the TS enum values). -/
def ChannelType.toStr : ChannelType → String
  | .line => "line"
  | .sms => "sms"
  | .whatsapp => "whatsapp"
  | .email => "email"
  | .webchat => "webchat"
  | .facebook => "facebook"
  | .instagram => "instagram"
  | .linkedin => "linkedin"

/-- IdentifierType from src/types/customer.ts. -/
inductive IdentifierType where
  | line_id | phone | email | fb_psid | ig_igsid | linkedin_urn | webchat_id
  deriving DecidableEq, Repr

/-- ThreadStatus from src/types/customer.ts; the source string literal is
    written open but that is a Lean keyword, hence the trailing underscore. -/
inductive ThreadStatus where
  | open_ | pending | closed
  deriving DecidableEq, Repr

/-- MessageStatus from src/types/message.ts. -/
inductive MessageStatus where
  | pending | sent | delivered | read | failed
  deriving DecidableEq, Repr

/-- MessageDirection from src/types/message.ts. -/
inductive MessageDirection where
  | inbound | outbound
  deriving DecidableEq, Repr

/-- CustomerIdentifier from src/types/customer.ts. -/
structure CustomerIdentifier where
  type : IdentifierType
  value : String
  channel : ChannelType
  verified : Bool
  deriving DecidableEq, Repr

/-- Customer from src/types/customer.ts (metadata bag omitted: no claim
    inspects it and the engine never interprets it). -/
structure Customer where
  customerId : String
  displayName : String
  avatarUrl : Option String
  identifiers : List CustomerIdentifier
  tags : List String
  notes : Option String
  isVip : Bool
  createdAt : String
  updatedAt : String
  deriving DecidableEq, Repr

/-- Thread from src/types/customer.ts (metadata bag omitted). -/
structure Thread where
  threadId : String
  customerId : String
  channel : ChannelType
  externalConversationId : Option String
  status : ThreadStatus
  assignedTo : Option String
  assignedToName : Option String
  larkGroupId : Option String
  larkMessageId : Option String
  subject : Option String
  lastMessageAt : Option String
  lastMessagePreview : Option String
  unreadCount : Nat
  createdAt : String
  updatedAt : String
  deriving DecidableEq, Repr

/-- UnifiedMessage from src/types/message.ts (attachments and metadata
    omitted: opaque to the engine, uninspected by every claim). -/
structure UnifiedMessage where
  messageId : String
  threadId : String
  customerId : String
  channel : ChannelType
  direction : MessageDirection
  content : String
  contentType : String
  senderId : String
  senderName : Option String
  senderAvatar : Option String
  timestamp : String
  status : MessageStatus
  externalMessageId : Option String
  deriving DecidableEq, Repr

/-- SendResult from src/types/message.ts. -/
structure SendResult where
  success : Bool
  messageId : Option String
  externalMessageId : Option String
  error : Option String
  timestamp : String
  deriving DecidableEq, Repr

/-- OutboundMessageRequest from src/types/message.ts (attachments omitted). -/
structure OutboundMessageRequest where
  threadId : String
  content : String
  contentType : Option String
  operatorId : String
  operatorName : String
  deriving DecidableEq, Repr

/-- The normalized inbound payload accepted by InboundService.processMessage:
    a Partial UnifiedMessage together with identifierType and identifierValue. -/
structure RawMessage where
  channel : ChannelType
  identifierType : IdentifierType
  identifierValue : String
  content : Option String
  contentType : Option String
  senderId : Option String
  senderName : Option String
  senderAvatar : Option String
  timestamp : Option String
  externalMessageId : Option String
  deriving DecidableEq, Repr

/-- The three DynamoDB tables (customers, threads, messages) as one state. -/
structure Store where
  customers : List Customer
  threads : List Thread
  messages : List UnifiedMessage
  deriving DecidableEq, Repr

/-- JavaScript a or-else b on an optional string: undefined and the empty
    string are falsy, so both fall through to the default. -/
def jsOr (o : Option String) (d : String) : String :=
  match o with
  | none => d
  | some s => if s = "" then d else s

/-- JavaScript a or-else b where the fallback is itself optional. -/
def jsOrOpt (o : Option String) (d : Option String) : Option String :=
  match o with
  | none => d
  | some s => if s = "" then d else some s

/-- JavaScript truthiness of an optional string. -/
def jsTruthy (o : Option String) : Bool :=
  match o with
  | none => false
  | some s => decide (s ≠ "")

/-- DynamoDB PutCommand semantics on a list table: replace the row matching
    the key predicate when present, otherwise append the new row. -/
def upsertBy (p : α → Bool) (a : α) (l : List α) : List α :=
  if l.any p then l.map (fun x => if p x then a else x) else l ++ [a]

/-- CustomerRepository.getById. -/
def CustomerRepository.getById (st : Store) (customerId : String) : Option Customer :=
  st.customers.find? (fun c => decide (c.customerId = customerId))

/-- CustomerRepository.findByIdentifier: the identifier GSI resolves a
    (type, value) pair to the customer owning it. -/
def CustomerRepository.findByIdentifier (st : Store) (ty : IdentifierType) (v : String) :
    Option Customer :=
  st.customers.find? (fun c => c.identifiers.any (fun i => decide (i.type = ty ∧ i.value = v)))

/-- CustomerRepository.save (PutCommand keyed by customer_id). -/
def CustomerRepository.save (st : Store) (c : Customer) : Store :=
  { st with customers := upsertBy (fun x => decide (x.customerId = c.customerId)) c st.customers }

/-- ThreadRepository.getById. -/
def ThreadRepository.getById (st : Store) (threadId : String) : Option Thread :=
  st.threads.find? (fun t => decide (t.threadId = threadId))

/-- ThreadRepository.findActiveByCustomerAndChannel: the customer-index query
    filtered by channel and status distinct from closed. -/
def ThreadRepository.findActiveByCustomerAndChannel (st : Store) (customerId : String)
    (channel : ChannelType) : Option Thread :=
  st.threads.find? (fun t =>
    decide (t.customerId = customerId ∧ t.channel = channel ∧ t.status ≠ ThreadStatus.closed))

/-- ThreadRepository.save (PutCommand keyed by thread_id). -/
def ThreadRepository.save (st : Store) (t : Thread) : Store :=
  { st with threads := upsertBy (fun x => decide (x.threadId = t.threadId)) t st.threads }

/-- MessageRepository.getById. -/
def MessageRepository.getById (st : Store) (messageId : String) : Option UnifiedMessage :=
  st.messages.find? (fun m => decide (m.messageId = messageId))

/-- MessageRepository.save (PutCommand keyed by message_id). -/
def MessageRepository.save (st : Store) (m : UnifiedMessage) : Store :=
  { st with messages := upsertBy (fun x => decide (x.messageId = m.messageId)) m st.messages }

/-- CreateCustomerInput from src/services/customer.ts. -/
structure CreateCustomerInput where
  displayName : String
  identifier : CustomerIdentifier
  avatarUrl : Option String
  deriving DecidableEq, Repr

/-- CustomerService.create: builds a fresh customer (uuid and clock passed in)
    with the single given identifier, empty tags, isVip false, and saves it. -/
def CustomerService.create (st : Store) (input : CreateCustomerInput)
    (freshId now : String) : Customer × Store :=
  let customer : Customer :=
    { customerId := freshId
      displayName := input.displayName
      avatarUrl := input.avatarUrl
      identifiers := [input.identifier]
      tags := []
      notes := none
      isVip := false
      createdAt := now
      updatedAt := now }
  (customer, CustomerRepository.save st customer)

/-- CustomerService.addIdentifier: throws when the customer is missing, is a
    no-op when the same customer already owns the identifier, otherwise
    appends it and saves.  Identifiers of other customers are not consulted. -/
def CustomerService.addIdentifier (st : Store) (customerId : String)
    (identifier : CustomerIdentifier) (now : String) : Except String Store :=
  match CustomerRepository.getById st customerId with
  | none => .error "Customer not found"
  | some customer =>
      if customer.identifiers.any
          (fun i => decide (i.type = identifier.type ∧ i.value = identifier.value)) then
        .ok st
      else
        .ok (CustomerRepository.save st
          { customer with
              identifiers := customer.identifiers ++ [identifier]
              updatedAt := now })

/-- CreateThreadInput from src/services/thread.ts. -/
structure CreateThreadInput where
  customerId : String
  channel : ChannelType
  externalConversationId : Option String
  subject : Option String
  deriving DecidableEq, Repr

/-- ThreadService.create: a fresh thread starts open with unreadCount zero. -/
def ThreadService.create (st : Store) (input : CreateThreadInput)
    (freshId now : String) : Thread × Store :=
  let thread : Thread :=
    { threadId := freshId
      customerId := input.customerId
      channel := input.channel
      externalConversationId := input.externalConversationId
      status := .open_
      assignedTo := none
      assignedToName := none
      larkGroupId := none
      larkMessageId := none
      subject := input.subject
      lastMessageAt := none
      lastMessagePreview := none
      unreadCount := 0
      createdAt := now
      updatedAt := now }
  (thread, ThreadRepository.save st thread)

/-- ThreadService.updateStatus: reads the thread, overwrites status
    unconditionally, stamps updatedAt, saves. -/
def ThreadService.updateStatus (st : Store) (threadId : String)
    (status : ThreadStatus) (now : String) : Except String Store :=
  match ThreadRepository.getById st threadId with
  | none => .error "Thread not found"
  | some thread =>
      .ok (ThreadRepository.save st { thread with status := status, updatedAt := now })

/-- ThreadService.updateLastMessage: refreshes the preview fields and bumps
    unreadCount when the message is inbound. -/
def ThreadService.updateLastMessage (st : Store) (threadId : String)
    (message : UnifiedMessage) (now : String) : Except String Store :=
  match ThreadRepository.getById st threadId with
  | none => .error "Thread not found"
  | some thread =>
      .ok (ThreadRepository.save st
        { thread with
            lastMessageAt := some message.timestamp
            lastMessagePreview := some (message.content.take 100)
            unreadCount :=
              if message.direction = .inbound then thread.unreadCount + 1
              else thread.unreadCount
            updatedAt := now })

/-- ThreadService.setLarkInfo: records the notification-card correlation ids. -/
def ThreadService.setLarkInfo (st : Store) (threadId groupId messageId now : String) :
    Except String Store :=
  match ThreadRepository.getById st threadId with
  | none => .error "Thread not found"
  | some thread =>
      .ok (ThreadRepository.save st
        { thread with
            larkGroupId := some groupId
            larkMessageId := some messageId
            updatedAt := now })

/-- MessageService.store delegates to the repository save. -/
def MessageService.store (st : Store) (message : UnifiedMessage) : Store :=
  MessageRepository.save st message

/-- MessageService.updateStatus: reads the message, overwrites status
    unconditionally, saves.  No transition check of any kind. -/
def MessageService.updateStatus (st : Store) (messageId : String)
    (status : MessageStatus) : Except String Store :=
  match MessageRepository.getById st messageId with
  | none => .error "Message not found"
  | some message =>
      .ok (MessageRepository.save st { message with status := status })

/-- LarkSendResult from src/lark/client.ts. -/
structure LarkSendResult where
  success : Bool
  messageId : Option String
  error : Option String
  deriving DecidableEq, Repr

/-- LarkClient.sendInteractiveCard: the whole network call sits inside a
    try/catch, so the client never throws; a thrown network error is caught
    and returned as success false.  The oracle argument is the raw network
    outcome: an exception string, or the optional message id the Lark API
    returned. -/
def LarkClient.sendInteractiveCard (net : Except String (Option String)) : LarkSendResult :=
  match net with
  | .error e => { success := false, messageId := none, error := some e }
  | .ok omid => { success := true, messageId := omid, error := none }

/-- LarkNotificationService.sendMessageNotification: resolves the target
    group (the group of the thread or the configured default, both JS-falsy-checked),
    sends the card through the self-catching client, and when a message id
    came back and the thread has none stored yet records it via setLarkInfo.
    Only the setLarkInfo lookup can throw. -/
def LarkNotificationService.sendMessageNotification (st : Store)
    (_message : UnifiedMessage) (_customer : Customer) (thread : Thread)
    (net : Except String (Option String)) (defaultGroupId now : String) :
    Except String Store :=
  let groupId := jsOr thread.larkGroupId defaultGroupId
  if groupId = "" then
    .ok st
  else
    let result := LarkClient.sendInteractiveCard net
    if jsTruthy result.messageId && !(jsTruthy thread.larkMessageId) then
      ThreadService.setLarkInfo st thread.threadId groupId ((result.messageId).getD "") now
    else
      .ok st

/-- LarkNotificationService.updateMessageStatus: patches the notification
    card through the self-catching client; it reads the thread snapshot only
    and never writes to any store. -/
def LarkNotificationService.updateMessageStatus (st : Store) (_thread : Thread)
    (_result : SendResult) : Store :=
  st

/-- Step 1 of InboundService.processMessage: look the customer up by the
    inbound identifier; when absent, create one with that single verified
    identifier (sender name or Unknown, JS-falsy checked). -/
def InboundService.resolveCustomer (st : Store) (raw : RawMessage)
    (freshCustomerId now : String) : Customer × Store :=
  match CustomerRepository.findByIdentifier st raw.identifierType raw.identifierValue with
  | some c => (c, st)
  | none =>
      CustomerService.create st
        { displayName := jsOr raw.senderName "Unknown"
          identifier :=
            { type := raw.identifierType
              value := raw.identifierValue
              channel := raw.channel
              verified := true }
          avatarUrl := raw.senderAvatar }
        freshCustomerId now

/-- Step 2: look the active (non-closed) thread up for the customer and
    channel; when absent, create a fresh open thread. -/
def InboundService.routeThread (st : Store) (customerId : String) (raw : RawMessage)
    (freshThreadId now : String) : Thread × Store :=
  match ThreadRepository.findActiveByCustomerAndChannel st customerId raw.channel with
  | some t => (t, st)
  | none =>
      ThreadService.create st
        { customerId := customerId
          channel := raw.channel
          externalConversationId := raw.externalMessageId
          subject := none }
        freshThreadId now

/-- Step 3: the inbound UnifiedMessage record the pipeline persists
    (direction inbound, status delivered, JS-falsy fallbacks to the customer
    record for the sender fields). -/
def InboundService.buildMessage (raw : RawMessage) (customer : Customer)
    (threadId freshMessageId now : String) : UnifiedMessage :=
  { messageId := freshMessageId
    threadId := threadId
    customerId := customer.customerId
    channel := raw.channel
    direction := .inbound
    content := jsOr raw.content ""
    contentType := jsOr raw.contentType "text"
    senderId := jsOr raw.senderId customer.customerId
    senderName := jsOrOpt raw.senderName (some customer.displayName)
    senderAvatar := jsOrOpt raw.senderAvatar customer.avatarUrl
    timestamp := jsOr raw.timestamp now
    status := .delivered
    externalMessageId := raw.externalMessageId }

/-- Steps 1 to 4 of InboundService.processMessage: find-or-create customer,
    find-or-create active thread, build and persist the inbound
    UnifiedMessage, update the thread preview fields.  Returns the message,
    the customer and the thread snapshot handed to the notification step,
    together with the store after the four steps. -/
def InboundService.processMessageCore (st : Store) (raw : RawMessage)
    (freshCustomerId freshThreadId freshMessageId now : String) :
    Except String (UnifiedMessage × Customer × Thread × Store) := do
  let (customer, st1) := InboundService.resolveCustomer st raw freshCustomerId now
  let (thread, st2) := InboundService.routeThread st1 customer.customerId raw freshThreadId now
  let message := InboundService.buildMessage raw customer thread.threadId freshMessageId now
  let st3 := MessageService.store st2 message
  let st4 ← ThreadService.updateLastMessage st3 thread.threadId message now
  pure (message, customer, thread, st4)

/-- InboundService.processMessage: the four pipeline steps followed by the
    Lark notification dispatch (which receives the pre-update thread
    snapshot, exactly as the source passes the local thread variable). -/
def InboundService.processMessage (st : Store) (raw : RawMessage)
    (freshCustomerId freshThreadId freshMessageId now : String)
    (net : Except String (Option String)) (defaultGroupId : String) :
    Except String Store := do
  let (message, customer, thread, st4) ←
    InboundService.processMessageCore st raw freshCustomerId freshThreadId freshMessageId now
  LarkNotificationService.sendMessageNotification st4 message customer thread
    net defaultGroupId now

/-- Outcomes of the three channel clients OutboundService holds, as oracles:
    what the sendMessage of each client would do if invoked (an exception string,
    or a returned SendResult). -/
structure ProviderOracles where
  twilio : Except String SendResult
  meta : Except String SendResult
  linkedin : Except String SendResult

/-- OutboundService.sendReply.  Returns the SendResult, the resulting store,
    and the list of provider clients whose sendMessage was invoked (in
    order), so that dispatch behaviour is observable.  A client exception is
    caught by the try/catch around the switch and converted to a failed
    SendResult; the default switch branch invokes nothing and yields the
    Unsupported-channel result. -/
def OutboundService.sendReply (st : Store) (request : OutboundMessageRequest)
    (oracles : ProviderOracles) (freshMessageId now : String) :
    Except String (SendResult × Store × List ChannelProvider) := do
  match ThreadRepository.getById st request.threadId with
  | none =>
      pure ({ success := false, messageId := none, externalMessageId := none
              error := some "Thread not found", timestamp := now }, st, [])
  | some thread =>
      let provider := CHANNEL_PROVIDERS thread.channel
      let catchOracle : Except String SendResult → SendResult := fun o =>
        match o with
        | .ok r => r
        | .error e =>
            { success := false, messageId := none, externalMessageId := none
              error := some e, timestamp := now }
      let (sendResult, invoked) :=
        match provider with
        | .twilio => (catchOracle oracles.twilio, [ChannelProvider.twilio])
        | .meta => (catchOracle oracles.meta, [ChannelProvider.meta])
        | .linkedin => (catchOracle oracles.linkedin, [ChannelProvider.linkedin])
        | .direct =>
            ({ success := false, messageId := none, externalMessageId := none
               error := some "Unsupported channel", timestamp := now }, [])
      let st2 ←
        if sendResult.success then do
          let message : UnifiedMessage :=
            { messageId := freshMessageId
              threadId := thread.threadId
              customerId := thread.customerId
              channel := thread.channel
              direction := .outbound
              content := request.content
              contentType := jsOr request.contentType "text"
              senderId := request.operatorId
              senderName := some request.operatorName
              senderAvatar := none
              timestamp := now
              status := .sent
              externalMessageId := sendResult.externalMessageId }
          let stm := MessageService.store st message
          ThreadService.updateLastMessage stm thread.threadId message now
        else
          pure st
      let st3 := LarkNotificationService.updateMessageStatus st2 thread sendResult
      pure (sendResult, st3, invoked)

/-- RuleCondition.type from src/services/automation.ts. -/
inductive ConditionType where
  | channel | keyword | customer_attribute | time
  deriving DecidableEq, Repr

/-- RuleCondition.operator; the source string in is a Lean keyword, hence
    the trailing underscore. -/
inductive RuleOperator where
  | equals | contains | in_ | not_in
  deriving DecidableEq, Repr

/-- RuleCondition.value is string or string-array in the source. -/
inductive RuleValue where
  | str (s : String)
  | list (l : List String)
  deriving DecidableEq, Repr

/-- RuleCondition from src/services/automation.ts. -/
structure RuleCondition where
  type : ConditionType
  operator : RuleOperator
  value : RuleValue
  deriving DecidableEq, Repr

/-- RuleAction.type from src/services/automation.ts. -/
inductive ActionType where
  | notify | assign | tag | priority | auto_reply
  deriving DecidableEq, Repr

/-- RuleAction; the params record is modelled as a string association list. -/
structure RuleAction where
  type : ActionType
  params : List (String × String)
  deriving DecidableEq, Repr

/-- AutomationRule from src/services/automation.ts. -/
structure AutomationRule where
  id : String
  name : String
  enabled : Bool
  conditions : List RuleCondition
  actions : List RuleAction
  deriving DecidableEq, Repr

/-- JavaScript String.prototype.toLowerCase, on the character list (ASCII
    case folding; the configured keywords are ASCII or Japanese, where the
    two folds agree). -/
def strToLower (s : String) : String :=
  String.mk (s.data.map Char.toLower)

/-- JavaScript String.prototype.split with a one-character separator, on the
    character list: splits at every occurrence, keeping empty pieces, and
    yields one (possibly empty) piece even for the empty string. -/
def splitOnChar (sep : Char) : List Char → List (List Char)
  | [] => [[]]
  | c :: tl =>
      let rest := splitOnChar sep tl
      if c = sep then [] :: rest
      else
        match rest with
        | [] => [[c]]
        | h :: t => (c :: h) :: t

/-- JavaScript split of a string on a one-character separator. -/
def jsSplit (s : String) (sep : Char) : List String :=
  (splitOnChar sep s.data).map (fun cs => String.mk cs)

/-- Contiguous-sublist test on character lists (an empty pattern always
    matches, as with the JS includes method). -/
def listIsInfixOf (sub : List Char) : List Char → Bool
  | [] => sub.isEmpty
  | c :: tl => sub.isPrefixOf (c :: tl) || listIsInfixOf sub tl

/-- JavaScript String.prototype.includes: substring containment. -/
def strIncludes (s sub : String) : Bool :=
  listIsInfixOf sub.data s.data

/-- AutomationService.matchValue: strict equality against a string value,
    membership against an array value; the contains operator and every
    string/array mismatch fall to the default false (strict equality of a
    string with an array is false in JS). -/
def AutomationService.matchValue (value : String) (condition : RuleCondition) : Bool :=
  match condition.operator, condition.value with
  | .equals, .str s => decide (value = s)
  | .equals, .list _ => false
  | .in_, .list l => l.contains value
  | .in_, .str _ => false
  | .not_in, .list l => !(l.contains value)
  | .not_in, .str _ => false
  | .contains, _ => false

/-- AutomationService.matchKeywords: case-insensitive substring match of any
    keyword against the content. -/
def AutomationService.matchKeywords (content : String) (condition : RuleCondition) : Bool :=
  let keywords := match condition.value with
    | .list l => l
    | .str s => [s]
  keywords.any (fun kw => strIncludes (strToLower content) (strToLower kw))

/-- AutomationService.matchCustomerAttribute: splits the condition value on
    the colon; attribute vip compares isVip with whether the right part is
    the literal true, attribute tag tests tag membership, anything else is
    false.  A missing right part behaves like JS undefined: never equal to
    the string true and never a member of tags.  An array value would raise
    a TypeError in the source (split on an array); no rule set under any
    claim carries one, and it is mapped to false here. -/
def AutomationService.matchCustomerAttribute (customer : Customer)
    (condition : RuleCondition) : Bool :=
  match condition.value with
  | .list _ => false
  | .str s =>
      match jsSplit s ':' with
      | [] => false
      | attr :: rest =>
          let val : Option String := rest.head?
          if attr = "vip" then
            decide (customer.isVip = decide (val = some "true"))
          else if attr = "tag" then
            match val with
            | some v => customer.tags.contains v
            | none => false
          else
            false

/-- AutomationService.matchTime: the fixed Mon-Fri 09:00-18:00 window against
    the server clock, passed in as day-of-week (0 Sunday .. 6 Saturday) and
    hour. -/
def AutomationService.matchTime (condition : RuleCondition) (day hour : Nat) : Bool :=
  let isBusinessHours := decide (1 ≤ day ∧ day ≤ 5 ∧ 9 ≤ hour ∧ hour < 18)
  if condition.value = .str "business_hours" then isBusinessHours else !isBusinessHours

/-- AutomationService.evaluateCondition dispatches on the condition type. -/
def AutomationService.evaluateCondition (condition : RuleCondition)
    (message : UnifiedMessage) (customer : Customer) (_thread : Thread)
    (day hour : Nat) : Bool :=
  match condition.type with
  | .channel => AutomationService.matchValue message.channel.toStr condition
  | .keyword => AutomationService.matchKeywords message.content condition
  | .customer_attribute => AutomationService.matchCustomerAttribute customer condition
  | .time => AutomationService.matchTime condition day hour

/-- AutomationService.evaluate: walks the rule list in order, skips disabled
    rules, and appends the actions of every rule all of whose conditions
    hold. -/
def AutomationService.evaluate (rules : List AutomationRule)
    (message : UnifiedMessage) (customer : Customer) (thread : Thread)
    (day hour : Nat) : List RuleAction :=
  match rules with
  | [] => []
  | r :: rs =>
      if r.enabled &&
          r.conditions.all
            (fun c => AutomationService.evaluateCondition c message customer thread day hour) then
        r.actions ++ AutomationService.evaluate rs message customer thread day hour
      else
        AutomationService.evaluate rs message customer thread day hour

/-- AutomationService.loadRules: the two rules installed at startup, with the
    VIP group environment variable passed in. -/
def AutomationService.loadRules (larkVipGroup : String) : List AutomationRule :=
  [ { id := "vip-notification"
      name := "VIP Customer Notification"
      enabled := true
      conditions := [{ type := .customer_attribute, operator := .equals, value := .str "vip:true" }]
      actions :=
        [ { type := .notify, params := [("groupId", larkVipGroup), ("mention", "@all")] }
        , { type := .priority, params := [("level", "high")] } ] }
  , { id := "urgent-keyword"
      name := "Urgent Keyword Detection"
      enabled := true
      conditions :=
        [{ type := .keyword, operator := .contains
           value := .list ["urgent", "緊急", "ASAP", "クレーム"] }]
      actions :=
        [ { type := .priority, params := [("level", "high")] }
        , { type := .tag, params := [("tag", "urgent")] } ] } ]

/- Helper lemmas about find? and the put-upsert table semantics, shared by
   the claim theorems below. -/

theorem any_eq_false_of_find?_eq_none {p : α → Bool} {l : List α}
    (h : l.find? p = none) : l.any p = false := by
  rw [List.any_eq_false]
  exact fun x hx => List.find?_eq_none.mp h x hx

theorem upsertBy_of_any_false {p : α → Bool} {l : List α}
    (h : l.any p = false) (a : α) : upsertBy p a l = l ++ [a] := by
  simp [upsertBy, h]

theorem map_replace_eq_self {p : α → Bool} {l : List α} (a : α)
    (h : ∀ x ∈ l, p x = false) :
    l.map (fun x => if p x then a else x) = l := by
  induction l with
  | nil => rfl
  | cons y tl ih =>
      have hy := h y (List.mem_cons_self y tl)
      simp [hy, ih (fun x hx => h x (List.mem_cons_of_mem y hx))]

theorem upsertBy_append_singleton {p : α → Bool} {l : List α} {b : α}
    (h : ∀ x ∈ l, p x = false) (hb : p b = true) (a : α) :
    upsertBy p a (l ++ [b]) = l ++ [a] := by
  have hany : (l ++ [b]).any p = true := by
    rw [List.any_append]
    simp [hb]
  simp only [upsertBy, hany, if_pos rfl, List.map_append, List.map_cons, List.map_nil, hb,
    if_true, map_replace_eq_self a h]

theorem find?_map_replace {p : α → Bool} {l : List α} {a : α}
    (hl : l.any p = true) (ha : p a = true) :
    (l.map (fun x => if p x then a else x)).find? p = some a := by
  induction l with
  | nil => simp at hl
  | cons y tl ih =>
      by_cases hy : p y = true
      · simp [List.find?_cons, hy, ha]
      · have hy' : p y = false := by simpa using hy
        rw [List.any_cons] at hl
        have htl : tl.any p = true := by simpa [hy'] using hl
        simp only [List.map_cons, hy', Bool.false_eq_true, if_false, List.find?_cons, cond_false]
        exact ih htl

theorem find?_upsertBy_self {p : α → Bool} {l : List α} {a : α}
    (hl : l.any p = true) (ha : p a = true) :
    (upsertBy p a l).find? p = some a := by
  unfold upsertBy
  rw [if_pos hl]
  exact find?_map_replace hl ha

theorem mem_upsertBy {p : α → Bool} {l : List α} {a x : α}
    (hx : x ∈ upsertBy p a l) : x ∈ l ∨ x = a := by
  unfold upsertBy at hx
  by_cases h : l.any p = true
  · rw [if_pos h] at hx
    rcases List.mem_map.mp hx with ⟨y, hy, hyx⟩
    by_cases hpy : p y = true
    · right; simpa [hpy] using hyx.symm
    · left
      have : y = x := by simpa [hpy] using hyx
      exact this ▸ hy
  · rw [if_neg h] at hx
    rcases List.mem_append.mp hx with h1 | h1
    · exact Or.inl h1
    · exact Or.inr (by simpa using h1)

theorem self_mem_upsertBy {p : α → Bool} {l : List α} (a : α) :
    a ∈ upsertBy p a l := by
  unfold upsertBy
  by_cases h : l.any p = true
  · rw [if_pos h]
    rcases List.any_eq_true.mp h with ⟨y, hy, hpy⟩
    exact List.mem_map.mpr ⟨y, hy, by simp [hpy]⟩
  · rw [if_neg h]
    simp

theorem exists_find?_eq_some_of_mem {p : α → Bool} {l : List α} {a : α}
    (hmem : a ∈ l) (ha : p a = true) : ∃ u, l.find? p = some u := by
  have : (l.find? p).isSome := List.find?_isSome.mpr ⟨a, hmem, ha⟩
  rcases Option.isSome_iff_exists.mp this with ⟨u, hu⟩
  exact ⟨u, hu⟩

theorem find?_append_of_none {p : α → Bool} {l1 l2 : List α}
    (h : l1.find? p = none) : (l1 ++ l2).find? p = l2.find? p := by
  rw [List.find?_append, h, Option.none_or]

theorem threadRepository_getById_save_self (st : Store) (t : Thread)
    (hany : st.threads.any (fun x => decide (x.threadId = t.threadId)) = true) :
    ThreadRepository.getById (ThreadRepository.save st t) t.threadId = some t := by
  unfold ThreadRepository.getById ThreadRepository.save
  exact find?_upsertBy_self hany (by simp)

theorem customerRepository_getById_save_self (st : Store) (c : Customer)
    (hany : st.customers.any (fun x => decide (x.customerId = c.customerId)) = true) :
    CustomerRepository.getById (CustomerRepository.save st c) c.customerId = some c := by
  unfold CustomerRepository.getById CustomerRepository.save
  exact find?_upsertBy_self hany (by simp)

theorem messageRepository_getById_save_self (st : Store) (m : UnifiedMessage)
    (hany : st.messages.any (fun x => decide (x.messageId = m.messageId)) = true) :
    MessageRepository.getById (MessageRepository.save st m) m.messageId = some m := by
  unfold MessageRepository.getById MessageRepository.save
  exact find?_upsertBy_self hany (by simp)

/-- Decidable equality on Except results, so concrete runs can be settled
    by decide. -/
instance {ε α : Type _} [DecidableEq ε] [DecidableEq α] : DecidableEq (Except ε α) :=
  fun x y =>
    match x, y with
    | .ok a, .ok b =>
        if h : a = b then .isTrue (by rw [h]) else
          .isFalse (fun hh => h (by cases hh; rfl))
    | .error e, .error f =>
        if h : e = f then .isTrue (by rw [h]) else
          .isFalse (fun hh => h (by cases hh; rfl))
    | .ok _, .error _ => .isFalse (fun hh => by cases hh)
    | .error _, .ok _ => .isFalse (fun hh => by cases hh)

/- Concrete fixtures used by the counterexamples and witnesses below. -/

def mkThreadFix (tid cid : String) (ch : ChannelType) (stt : ThreadStatus) : Thread :=
  { threadId := tid, customerId := cid, channel := ch, externalConversationId := none
    status := stt, assignedTo := none, assignedToName := none, larkGroupId := none
    larkMessageId := none, subject := none, lastMessageAt := none, lastMessagePreview := none
    unreadCount := 0, createdAt := "t0", updatedAt := "t0" }

def mkCustomerFix (cid : String) (ids : List CustomerIdentifier) (vip : Bool) : Customer :=
  { customerId := cid, displayName := cid, avatarUrl := none, identifiers := ids, tags := []
    notes := none, isVip := vip, createdAt := "t0", updatedAt := "t0" }

def mkMessageFix (mid tid : String) (stt : MessageStatus) : UnifiedMessage :=
  { messageId := mid, threadId := tid, customerId := "c1", channel := .sms
    direction := .inbound, content := "hello", contentType := "text", senderId := "s1"
    senderName := none, senderAvatar := none, timestamp := "t0", status := stt
    externalMessageId := none }

def identShared : CustomerIdentifier :=
  { type := .phone, value := "+81900000001", channel := .sms, verified := true }

def identOther : CustomerIdentifier :=
  { type := .email, value := "b@example.com", channel := .email, verified := true }

/-- C2 counterexample: a store holding one thread whose status is closed; a
    request to change its status to open succeeds and the stored status
    becomes open, contradicting the claim that the request is rejected and
    the status stays closed. -/
theorem closedThread_reopen_counterexample :
    ThreadService.updateStatus
        { customers := [], threads := [mkThreadFix "th1" "c1" .sms .closed], messages := [] }
        "th1" .open_ "t1"
      = .ok { customers := []
              threads := [{ mkThreadFix "th1" "c1" .sms .closed with
                              status := .open_, updatedAt := "t1" }]
              messages := [] } := by
  decide

/-- C2 (amended): ThreadService.updateStatus enforces no state machine at
    all: for every stored thread, including one whose status is closed, a
    request to change the status to any value succeeds and unconditionally
    overwrites the stored status. -/
theorem threadUpdateStatus_overwrites
    (st : Store) (tid : String) (newStatus : ThreadStatus) (now : String) (t : Thread)
    (h : ThreadRepository.getById st tid = some t) :
    ∃ st', ThreadService.updateStatus st tid newStatus now = .ok st' ∧
      ThreadRepository.getById st' tid = some { t with status := newStatus, updatedAt := now } ∧
      st'.customers = st.customers ∧ st'.messages = st.messages := by
  have ht : t.threadId = tid := by
    have hp := List.find?_some h
    simpa using hp
  have hmem : t ∈ st.threads := List.mem_of_find?_eq_some h
  unfold ThreadService.updateStatus
  rw [h]
  refine ⟨_, rfl, ?_, rfl, rfl⟩
  rw [← ht]
  exact threadRepository_getById_save_self st _
    (List.any_eq_true.mpr ⟨t, hmem, by simp⟩)

/-- C2 witness: the amended theorem applied to the concrete closed thread. -/
theorem threadUpdateStatus_overwrites_witness :
    ∃ st', ThreadService.updateStatus
        { customers := [], threads := [mkThreadFix "th1" "c1" .sms .closed], messages := [] }
        "th1" .open_ "t1" = .ok st' ∧
      ThreadRepository.getById st' "th1"
        = some { mkThreadFix "th1" "c1" .sms .closed with status := .open_, updatedAt := "t1" } ∧
      st'.customers = [] ∧ st'.messages = [] :=
  threadUpdateStatus_overwrites _ "th1" .open_ "t1" _ (by decide)

/-- C7 counterexample: a store holding one message whose status is sent; a
    status update back to pending succeeds and the stored status becomes
    pending, contradicting the claim that a message status never regresses. -/
theorem messageStatus_regression_counterexample :
    MessageService.updateStatus
        { customers := [], threads := [], messages := [mkMessageFix "m1" "th1" .sent] }
        "m1" .pending
      = .ok { customers := [], threads := []
              messages := [{ mkMessageFix "m1" "th1" .sent with status := .pending }] } := by
  decide

/-- C7 (amended): MessageService.updateStatus performs no transition check:
    for every stored message and every requested status, including a
    regression from sent back to pending or away from a terminal value, the
    update succeeds and unconditionally overwrites the stored status. -/
theorem messageUpdateStatus_overwrites
    (st : Store) (mid : String) (newStatus : MessageStatus) (m : UnifiedMessage)
    (h : MessageRepository.getById st mid = some m) :
    ∃ st', MessageService.updateStatus st mid newStatus = .ok st' ∧
      MessageRepository.getById st' mid = some { m with status := newStatus } ∧
      st'.customers = st.customers ∧ st'.threads = st.threads := by
  have hm : m.messageId = mid := by
    have hp := List.find?_some h
    simpa using hp
  have hmem : m ∈ st.messages := List.mem_of_find?_eq_some h
  unfold MessageService.updateStatus
  rw [h]
  refine ⟨_, rfl, ?_, rfl, rfl⟩
  rw [← hm]
  exact messageRepository_getById_save_self st _
    (List.any_eq_true.mpr ⟨m, hmem, by simp⟩)

/-- C7 witness: the amended theorem applied to a concrete sent message
    regressed to pending. -/
theorem messageUpdateStatus_overwrites_witness :
    ∃ st', MessageService.updateStatus
        { customers := [], threads := [], messages := [mkMessageFix "m1" "th1" .sent] }
        "m1" .pending = .ok st' ∧
      MessageRepository.getById st' "m1"
        = some { mkMessageFix "m1" "th1" .sent with status := .pending } ∧
      st'.customers = [] ∧ st'.threads = [] :=
  messageUpdateStatus_overwrites _ "m1" .pending _ (by decide)

/-- C5 counterexample: customer cA owns the phone identifier; attaching the
    same identifier to the distinct customer cB returns ok (no
    IdentifierConflict error exists anywhere in the code) and silently
    appends it to the identifier set of cB, so both customers now own it. -/
theorem addIdentifier_conflict_counterexample :
    CustomerService.addIdentifier
        { customers := [mkCustomerFix "cA" [identShared] false,
                        mkCustomerFix "cB" [identOther] false]
          threads := [], messages := [] }
        "cB" identShared "t1"
      = .ok { customers := [mkCustomerFix "cA" [identShared] false,
                            { mkCustomerFix "cB" [identOther] false with
                                identifiers := [identOther] ++ [identShared]
                                updatedAt := "t1" }]
              threads := [], messages := [] } := by
  decide

/-- C5 (amended): CustomerService.addIdentifier consults only the target
    own identifier list of the target customer: for every store and every customer B
    that exists and does not itself own the identifier, the call succeeds —
    even when a different customer already owns the same (type, value) — and
    appends the identifier to the set of B, so cross-customer duplicates are
    created silently instead of raising an IdentifierConflict error. -/
theorem addIdentifier_no_conflict_check
    (st : Store) (cid : String) (ident : CustomerIdentifier) (now : String) (b : Customer)
    (hb : CustomerRepository.getById st cid = some b)
    (hnot : b.identifiers.any
      (fun i => decide (i.type = ident.type ∧ i.value = ident.value)) = false) :
    ∃ st', CustomerService.addIdentifier st cid ident now = .ok st' ∧
      CustomerRepository.getById st' cid
        = some { b with identifiers := b.identifiers ++ [ident], updatedAt := now } ∧
      st'.threads = st.threads ∧ st'.messages = st.messages := by
  have hcid : b.customerId = cid := by
    have hp := List.find?_some hb
    simpa using hp
  have hmem : b ∈ st.customers := List.mem_of_find?_eq_some hb
  simp only [CustomerService.addIdentifier, hb, hnot, Bool.false_eq_true, if_false]
  refine ⟨_, rfl, ?_, rfl, rfl⟩
  rw [← hcid]
  exact customerRepository_getById_save_self st _
    (List.any_eq_true.mpr ⟨b, hmem, by simp⟩)

/-- C5 witness: the amended theorem applied to the concrete two-customer
    store in which cA already owns the identifier being attached to cB. -/
theorem addIdentifier_no_conflict_check_witness :
    ∃ st', CustomerService.addIdentifier
        { customers := [mkCustomerFix "cA" [identShared] false,
                        mkCustomerFix "cB" [identOther] false]
          threads := [], messages := [] }
        "cB" identShared "t1" = .ok st' ∧
      CustomerRepository.getById st' "cB"
        = some { mkCustomerFix "cB" [identOther] false with
                   identifiers := [identOther] ++ [identShared], updatedAt := "t1" } ∧
      st'.threads = [] ∧ st'.messages = [] :=
  addIdentifier_no_conflict_check _ "cB" identShared "t1"
    (mkCustomerFix "cB" [identOther] false) (by decide) (by decide)

/-- C9 (confirmed): when the customer exists and already owns the identifier,
    CustomerService.addIdentifier is a pure no-op returning the store
    unchanged with no error; hence two consecutive calls with the same
    arguments leave exactly the state of one call (no duplicate entry). -/
theorem addIdentifier_idempotent
    (st : Store) (cid : String) (ident : CustomerIdentifier) (now now2 : String) (c : Customer)
    (hc : CustomerRepository.getById st cid = some c)
    (howns : c.identifiers.any
      (fun i => decide (i.type = ident.type ∧ i.value = ident.value)) = true) :
    CustomerService.addIdentifier st cid ident now = .ok st ∧
    CustomerService.addIdentifier st cid ident now2 = .ok st := by
  constructor <;>
    simp only [CustomerService.addIdentifier, hc, howns, if_true]

/-- C9 witness: the idempotency theorem applied to a concrete owner. -/
theorem addIdentifier_idempotent_witness :
    CustomerService.addIdentifier
        { customers := [mkCustomerFix "cA" [identShared] false], threads := [], messages := [] }
        "cA" identShared "t1"
      = .ok { customers := [mkCustomerFix "cA" [identShared] false]
              threads := [], messages := [] } ∧
    CustomerService.addIdentifier
        { customers := [mkCustomerFix "cA" [identShared] false], threads := [], messages := [] }
        "cA" identShared "t2"
      = .ok { customers := [mkCustomerFix "cA" [identShared] false]
              threads := [], messages := [] } :=
  addIdentifier_idempotent _ "cA" identShared "t1" "t2"
    (mkCustomerFix "cA" [identShared] false) (by decide) (by decide)

/-- A SendResult carrying only an error, as built by the catch block and the
    early returns of OutboundService.sendReply. -/
def failResult (e now : String) : SendResult :=
  { success := false, messageId := none, externalMessageId := none
    error := some e, timestamp := now }

/-- C6 (confirmed): sendReply never persists a message on failure.  With an
    unknown threadId it returns the Thread-not-found failure without
    touching any provider and with the store unchanged; when the dispatched
    provider client throws, the exception is caught and converted to a
    failed SendResult carrying the exception message, again with the store
    (messages and thread records) unchanged and exactly that provider
    invoked. -/
theorem sendReply_failure_modes
    (st : Store) (request : OutboundMessageRequest) (oracles : ProviderOracles)
    (fmid now : String) :
    (ThreadRepository.getById st request.threadId = none →
      OutboundService.sendReply st request oracles fmid now
        = .ok (failResult "Thread not found" now, st, [])) ∧
    (∀ thread e, ThreadRepository.getById st request.threadId = some thread →
      CHANNEL_PROVIDERS thread.channel = .twilio → oracles.twilio = .error e →
      OutboundService.sendReply st request oracles fmid now
        = .ok (failResult e now, st, [ChannelProvider.twilio])) ∧
    (∀ thread e, ThreadRepository.getById st request.threadId = some thread →
      CHANNEL_PROVIDERS thread.channel = .meta → oracles.meta = .error e →
      OutboundService.sendReply st request oracles fmid now
        = .ok (failResult e now, st, [ChannelProvider.meta])) ∧
    (∀ thread e, ThreadRepository.getById st request.threadId = some thread →
      CHANNEL_PROVIDERS thread.channel = .linkedin → oracles.linkedin = .error e →
      OutboundService.sendReply st request oracles fmid now
        = .ok (failResult e now, st, [ChannelProvider.linkedin])) := by
  refine ⟨fun h => ?_, fun thread e h hp he => ?_, fun thread e h hp he => ?_,
    fun thread e h hp he => ?_⟩
  · simp [OutboundService.sendReply, h, failResult,
      LarkNotificationService.updateMessageStatus]
    all_goals rfl
  · simp [OutboundService.sendReply, h, hp, he, failResult,
      LarkNotificationService.updateMessageStatus]
    all_goals rfl
  · simp [OutboundService.sendReply, h, hp, he, failResult,
      LarkNotificationService.updateMessageStatus]
    all_goals rfl
  · simp [OutboundService.sendReply, h, hp, he, failResult,
      LarkNotificationService.updateMessageStatus]
    all_goals rfl

/-- C6 witness: the failure-mode theorem applied to the empty store (unknown
    thread) and to a concrete sms thread whose twilio client throws. -/
theorem sendReply_failure_modes_witness :
    OutboundService.sendReply { customers := [], threads := [], messages := [] }
        { threadId := "th1", content := "x", contentType := none
          operatorId := "op", operatorName := "Op" }
        ⟨.error "tw", .error "me", .error "li"⟩ "m2" "now"
      = .ok (failResult "Thread not found" "now",
             { customers := [], threads := [], messages := [] }, []) ∧
    OutboundService.sendReply
        { customers := [], threads := [mkThreadFix "th1" "c1" .sms .open_], messages := [] }
        { threadId := "th1", content := "x", contentType := none
          operatorId := "op", operatorName := "Op" }
        ⟨.error "twilio down", .error "me", .error "li"⟩ "m2" "now"
      = .ok (failResult "twilio down" "now",
             { customers := [], threads := [mkThreadFix "th1" "c1" .sms .open_], messages := [] },
             [ChannelProvider.twilio]) :=
  ⟨(sendReply_failure_modes _ _ _ "m2" "now").1 (by decide),
   (sendReply_failure_modes _ _ _ "m2" "now").2.1
     (mkThreadFix "th1" "c1" .sms .open_) "twilio down" (by decide) (by decide) (by decide)⟩

/-- C10 counterexample: an email-channel thread with every provider oracle
    answering successfully; sendReply invokes no provider at all (the
    invocation list is empty) and returns the Unsupported-channel failure
    instead of a direct-email send result, contradicting the claim that the
    email channel is dispatched to direct email exactly once with the
    SendResult of the provider returned. -/
theorem sendReply_email_counterexample :
    OutboundService.sendReply
        { customers := [], threads := [mkThreadFix "th1" "c1" .email .open_], messages := [] }
        { threadId := "th1", content := "hi", contentType := none
          operatorId := "op", operatorName := "Op" }
        ⟨.ok { success := true, messageId := none, externalMessageId := some "X1"
               error := none, timestamp := "pt" },
         .ok { success := true, messageId := none, externalMessageId := some "X1"
               error := none, timestamp := "pt" },
         .ok { success := true, messageId := none, externalMessageId := some "X1"
               error := none, timestamp := "pt" }⟩ "m2" "now"
      = .ok (failResult "Unsupported channel" "now",
             { customers := [], threads := [mkThreadFix "th1" "c1" .email .open_], messages := [] },
             []) := by
  decide

/-- C10 (amended): the static CHANNEL_PROVIDERS table maps line, sms,
    whatsapp and webchat to the twilio conversations client, facebook and
    instagram to the meta client, linkedin to the linkedin client, and email
    to direct; sendReply invokes the mapped client exactly once and returns
    its SendResult for the first three provider families, but the direct
    (email) family is absent from its dispatch switch, so an email-channel
    reply invokes no provider and yields the Unsupported-channel failure
    with the store unchanged. -/
theorem sendReply_dispatch
    (st : Store) (request : OutboundMessageRequest) (oracles : ProviderOracles)
    (fmid now : String) (thread : Thread)
    (h : ThreadRepository.getById st request.threadId = some thread) :
    (CHANNEL_PROVIDERS .line = .twilio ∧ CHANNEL_PROVIDERS .sms = .twilio ∧
     CHANNEL_PROVIDERS .whatsapp = .twilio ∧ CHANNEL_PROVIDERS .webchat = .twilio ∧
     CHANNEL_PROVIDERS .facebook = .meta ∧ CHANNEL_PROVIDERS .instagram = .meta ∧
     CHANNEL_PROVIDERS .linkedin = .linkedin ∧ CHANNEL_PROVIDERS .email = .direct) ∧
    (∀ r, CHANNEL_PROVIDERS thread.channel = .twilio → oracles.twilio = .ok r →
      ∃ st', OutboundService.sendReply st request oracles fmid now
        = .ok (r, st', [ChannelProvider.twilio])) ∧
    (∀ r, CHANNEL_PROVIDERS thread.channel = .meta → oracles.meta = .ok r →
      ∃ st', OutboundService.sendReply st request oracles fmid now
        = .ok (r, st', [ChannelProvider.meta])) ∧
    (∀ r, CHANNEL_PROVIDERS thread.channel = .linkedin → oracles.linkedin = .ok r →
      ∃ st', OutboundService.sendReply st request oracles fmid now
        = .ok (r, st', [ChannelProvider.linkedin])) ∧
    (thread.channel = .email →
      OutboundService.sendReply st request oracles fmid now
        = .ok (failResult "Unsupported channel" now, st, [])) := by
  have ht : thread.threadId = request.threadId := by
    have hp := List.find?_some h
    simpa using hp
  have hfind : ∀ (m : UnifiedMessage),
      ThreadRepository.getById (MessageService.store st m) thread.threadId = some thread := by
    intro m
    show ThreadRepository.getById st thread.threadId = some thread
    rw [ht]
    exact h
  refine ⟨by decide, fun r hp hr => ?_, fun r hp hr => ?_, fun r hp hr => ?_, fun hch => ?_⟩
  · by_cases hs : r.success
    · apply Exists.intro
      simp [OutboundService.sendReply, h, hp, hr, hs,
        LarkNotificationService.updateMessageStatus, ThreadService.updateLastMessage, hfind]
      all_goals rfl
    · apply Exists.intro
      simp [OutboundService.sendReply, h, hp, hr, hs,
        LarkNotificationService.updateMessageStatus]
      all_goals rfl
  · by_cases hs : r.success
    · apply Exists.intro
      simp [OutboundService.sendReply, h, hp, hr, hs,
        LarkNotificationService.updateMessageStatus, ThreadService.updateLastMessage, hfind]
      all_goals rfl
    · apply Exists.intro
      simp [OutboundService.sendReply, h, hp, hr, hs,
        LarkNotificationService.updateMessageStatus]
      all_goals rfl
  · by_cases hs : r.success
    · apply Exists.intro
      simp [OutboundService.sendReply, h, hp, hr, hs,
        LarkNotificationService.updateMessageStatus, ThreadService.updateLastMessage, hfind]
      all_goals rfl
    · apply Exists.intro
      simp [OutboundService.sendReply, h, hp, hr, hs,
        LarkNotificationService.updateMessageStatus]
      all_goals rfl
  · have hp : CHANNEL_PROVIDERS thread.channel = .direct := by
      rw [hch]
      decide
    simp [OutboundService.sendReply, h, hp, failResult,
      LarkNotificationService.updateMessageStatus]
    all_goals rfl

/-- C10 witness: the dispatch theorem applied to a concrete sms thread whose
    twilio oracle succeeds, and to a concrete email thread. -/
theorem sendReply_dispatch_witness :
    (∃ st', OutboundService.sendReply
        { customers := [], threads := [mkThreadFix "th1" "c1" .sms .open_], messages := [] }
        { threadId := "th1", content := "hi", contentType := none
          operatorId := "op", operatorName := "Op" }
        ⟨.ok { success := true, messageId := none, externalMessageId := some "X1"
               error := none, timestamp := "pt" },
         .error "me", .error "li"⟩ "m2" "now"
      = .ok ({ success := true, messageId := none, externalMessageId := some "X1"
               error := none, timestamp := "pt" }, st', [ChannelProvider.twilio])) ∧
    OutboundService.sendReply
        { customers := [], threads := [mkThreadFix "th2" "c1" .email .open_], messages := [] }
        { threadId := "th2", content := "hi", contentType := none
          operatorId := "op", operatorName := "Op" }
        ⟨.error "tw", .error "me", .error "li"⟩ "m2" "now"
      = .ok (failResult "Unsupported channel" "now",
             { customers := [], threads := [mkThreadFix "th2" "c1" .email .open_], messages := [] },
             []) :=
  ⟨(sendReply_dispatch _ _ _ "m2" "now" (mkThreadFix "th1" "c1" .sms .open_)
      (by decide)).2.1 _ (by decide) (by decide),
   (sendReply_dispatch _ _ _ "m2" "now" (mkThreadFix "th2" "c1" .email .open_)
      (by decide)).2.2.2.2 (by decide)⟩

/-- C8 (confirmed): AutomationService.evaluate returns exactly the
    concatenation, in rule-list order, of the action lists of the enabled
    rules whose conditions all hold (conjunction, accumulation rather than
    first match); and a rule whose single condition is the
    customer-attribute equality vip:true contributes its actions exactly
    when the customer is VIP — against a non-VIP customer it contributes
    nothing. -/
theorem evaluate_accumulates_fired_rules
    (rules : List AutomationRule) (message : UnifiedMessage) (customer : Customer)
    (thread : Thread) (day hour : Nat) :
    (AutomationService.evaluate rules message customer thread day hour
      = ((rules.filter (fun r => r.enabled && r.conditions.all
            (fun c => AutomationService.evaluateCondition c message customer thread day hour))).map
          (fun r => r.actions)).flatten) ∧
    (∀ (rid rname : String) (actions : List RuleAction),
      AutomationService.evaluate
        [{ id := rid, name := rname, enabled := true
           conditions := [{ type := .customer_attribute, operator := .equals
                            value := .str "vip:true" }]
           actions := actions }] message customer thread day hour
        = if customer.isVip then actions else []) := by
  constructor
  · induction rules with
    | nil => simp [AutomationService.evaluate]
    | cons r rs ih =>
        by_cases hr : r.enabled && r.conditions.all
            (fun c => AutomationService.evaluateCondition c message customer thread day hour)
        · simp [AutomationService.evaluate, hr, List.filter_cons, ih]
        · have hr' : (r.enabled && r.conditions.all
              (fun c => AutomationService.evaluateCondition c message customer thread day hour))
              = false := by simpa using hr
          simp [AutomationService.evaluate, hr', List.filter_cons, ih]
  · intro rid rname actions
    have hsplit : jsSplit "vip:true" ':' = ["vip", "true"] := by decide
    cases hv : customer.isVip <;>
      simp [AutomationService.evaluate, AutomationService.evaluateCondition,
        AutomationService.matchCustomerAttribute, hsplit, hv]

/-- ThreadService.updateLastMessage, followed by any pure continuation,
    succeeds whenever a thread with the given id is stored. -/
theorem updateLastMessage_bind_total {α} (st : Store) (tid : String)
    (msg : UnifiedMessage) (now : String) (u : Thread)
    (hu : ThreadRepository.getById st tid = some u) (f : Store → α) :
    ∃ b, (do
        let st4 ← ThreadService.updateLastMessage st tid msg now
        pure (f st4) : Except String α) = .ok b := by
  unfold ThreadService.updateLastMessage
  rw [hu]
  exact ⟨_, rfl⟩

/-- The thread returned by the routing step is stored in the thread table
    the routing step returns (it was found there, or was just saved). -/
theorem routeThread_fst_mem (st : Store) (customerId : String) (raw : RawMessage)
    (f2 now : String) :
    (InboundService.routeThread st customerId raw f2 now).1
      ∈ (InboundService.routeThread st customerId raw f2 now).2.threads := by
  unfold InboundService.routeThread
  cases hft : ThreadRepository.findActiveByCustomerAndChannel st customerId raw.channel with
  | some t => exact List.mem_of_find?_eq_some hft
  | none =>
      unfold ThreadService.create ThreadRepository.save
      exact self_mem_upsertBy _

/-- The four pipeline steps of processMessage always succeed: the thread they
    update was either found in or just saved into the thread table. -/
theorem processMessageCore_total (st : Store) (raw : RawMessage)
    (f1 f2 f3 now : String) :
    ∃ mct, InboundService.processMessageCore st raw f1 f2 f3 now = .ok mct := by
  unfold InboundService.processMessageCore
  have hmem := routeThread_fst_mem
    (InboundService.resolveCustomer st raw f1 now).2
    (InboundService.resolveCustomer st raw f1 now).1.customerId raw f2 now
  obtain ⟨u, hu⟩ := exists_find?_eq_some_of_mem
    (p := fun (x : Thread) => decide (x.threadId
      = (InboundService.routeThread (InboundService.resolveCustomer st raw f1 now).2
          (InboundService.resolveCustomer st raw f1 now).1.customerId raw f2 now).1.threadId))
    hmem (by simp)
  apply updateLastMessage_bind_total
  exact hu

/-- C4 (confirmed): a thrown Lark network error is absorbed — the Lark client
    catches it internally and reports success false, the notification step
    then skips the card-id write — so processMessage still returns ok and the
    resulting store is exactly the one produced by the four pipeline steps
    (customer, thread and message records unchanged by the failure). -/
theorem processMessage_notification_failure_harmless
    (st : Store) (raw : RawMessage) (f1 f2 f3 now e dg : String) :
    ∃ message customer thread st4,
      InboundService.processMessageCore st raw f1 f2 f3 now
        = .ok (message, customer, thread, st4) ∧
      InboundService.processMessage st raw f1 f2 f3 now (.error e) dg = .ok st4 := by
  obtain ⟨⟨m, c, t, st4⟩, hcore⟩ := processMessageCore_total st raw f1 f2 f3 now
  refine ⟨m, c, t, st4, hcore, ?_⟩
  unfold InboundService.processMessage
  rw [hcore]
  show LarkNotificationService.sendMessageNotification st4 m c t (.error e) dg now = .ok st4
  unfold LarkNotificationService.sendMessageNotification LarkClient.sendInteractiveCard
  simp [jsTruthy]

/-- A successful updateLastMessage leaves the customer and message tables
    untouched. -/
theorem updateLastMessage_ok_fields (st : Store) (tid : String) (msg : UnifiedMessage)
    (now : String) (st' : Store)
    (h : ThreadService.updateLastMessage st tid msg now = .ok st') :
    st'.customers = st.customers ∧ st'.messages = st.messages := by
  unfold ThreadService.updateLastMessage at h
  cases hg : ThreadRepository.getById st tid with
  | none =>
      rw [hg] at h
      exact Except.noConfusion h
  | some t =>
      rw [hg] at h
      injection h with h'
      subst h'
      exact ⟨rfl, rfl⟩

/-- A successful setLarkInfo leaves the customer and message tables
    untouched. -/
theorem setLarkInfo_ok_fields (st : Store) (tid gid mid now : String) (st' : Store)
    (h : ThreadService.setLarkInfo st tid gid mid now = .ok st') :
    st'.customers = st.customers ∧ st'.messages = st.messages := by
  unfold ThreadService.setLarkInfo at h
  cases hg : ThreadRepository.getById st tid with
  | none =>
      rw [hg] at h
      exact Except.noConfusion h
  | some t =>
      rw [hg] at h
      injection h with h'
      subst h'
      exact ⟨rfl, rfl⟩

/-- A successful notification dispatch leaves the customer and message
    tables untouched (it writes at most the card-correlation ids of the thread). -/
theorem sendMessageNotification_ok_fields (st : Store) (m : UnifiedMessage)
    (c : Customer) (t : Thread) (net : Except String (Option String))
    (dg now : String) (st' : Store)
    (h : LarkNotificationService.sendMessageNotification st m c t net dg now = .ok st') :
    st'.customers = st.customers ∧ st'.messages = st.messages := by
  unfold LarkNotificationService.sendMessageNotification at h
  by_cases hg : jsOr t.larkGroupId dg = ""
  · rw [if_pos hg] at h
    injection h with h'
    subst h'
    exact ⟨rfl, rfl⟩
  · rw [if_neg hg] at h
    by_cases hb : (jsTruthy (LarkClient.sendInteractiveCard net).messageId
        && !(jsTruthy t.larkMessageId)) = true
    · rw [if_pos hb] at h
      exact setLarkInfo_ok_fields _ _ _ _ _ _ h
    · rw [if_neg hb] at h
      injection h with h'
      subst h'
      exact ⟨rfl, rfl⟩

/-- Customer resolution either leaves the customer table unchanged or adds
    the freshly created customer, whose tag set is empty. -/
theorem resolveCustomer_customers_mem (st : Store) (raw : RawMessage) (f1 now : String) :
    ∀ c' ∈ (InboundService.resolveCustomer st raw f1 now).2.customers,
      c' ∈ st.customers ∨ c'.tags = [] := by
  unfold InboundService.resolveCustomer
  cases hfb : CustomerRepository.findByIdentifier st raw.identifierType raw.identifierValue with
  | some c => exact fun c' hc' => Or.inl hc'
  | none =>
      unfold CustomerService.create CustomerRepository.save
      intro c' hc'
      rcases mem_upsertBy hc' with h1 | h1
      · exact Or.inl h1
      · exact Or.inr (by rw [h1])

/-- Thread routing never touches the customer table. -/
theorem routeThread_customers (st : Store) (cid : String) (raw : RawMessage)
    (f2 now : String) :
    (InboundService.routeThread st cid raw f2 now).2.customers = st.customers := by
  unfold InboundService.routeThread
  cases hft : ThreadRepository.findActiveByCustomerAndChannel st cid raw.channel with
  | some t => rfl
  | none => rfl

/-- After the four pipeline steps, every stored customer is either an
    original one or the freshly created one with an empty tag set: no tag
    mutation is performed anywhere in the pipeline. -/
theorem processMessageCore_ok_customers (st : Store) (raw : RawMessage)
    (f1 f2 f3 now : String) (m : UnifiedMessage) (c : Customer) (t : Thread) (st4 : Store)
    (h : InboundService.processMessageCore st raw f1 f2 f3 now = .ok (m, c, t, st4)) :
    ∀ c' ∈ st4.customers, c' ∈ st.customers ∨ c'.tags = [] := by
  simp only [InboundService.processMessageCore] at h
  rcases hRC : InboundService.resolveCustomer st raw f1 now with ⟨customer, st1⟩
  rw [hRC] at h
  dsimp only at h
  rcases hRT : InboundService.routeThread st1 customer.customerId raw f2 now with ⟨thread, st2⟩
  rw [hRT] at h
  dsimp only at h
  have hmem1 : ∀ c' ∈ st1.customers, c' ∈ st.customers ∨ c'.tags = [] := by
    have hx := resolveCustomer_customers_mem st raw f1 now
    rw [hRC] at hx
    exact hx
  have hst2 : st2.customers = st1.customers := by
    have hx := routeThread_customers st1 customer.customerId raw f2 now
    rw [hRT] at hx
    exact hx
  cases hul : ThreadService.updateLastMessage
      (MessageService.store st2
        (InboundService.buildMessage raw customer thread.threadId f3 now))
      thread.threadId
      (InboundService.buildMessage raw customer thread.threadId f3 now) now with
  | error e =>
      rw [hul] at h
      exact Except.noConfusion h
  | ok s =>
      rw [hul] at h
      injection h with h'
      have hs4 : st4 = s := congrArg (fun q => q.2.2.2) h'.symm
      subst hs4
      have h1 := (updateLastMessage_ok_fields _ _ _ _ _ hul).1
      intro c' hc'
      rw [h1] at hc'
      have hc'' : c' ∈ st1.customers := by
        rw [← hst2]
        exact hc'
      exact hmem1 c' hc''

/-- C3 counterexample: a concrete inbound message whose stored triple makes
    the Automation Rule Engine fire the urgent-keyword rule (a tag action
    and a priority action), yet processMessage returns a store whose only
    customer still carries an empty tag set and whose records reflect steps
    1 to 4 only — the pipeline never consults the engine and applies no rule
    action. -/
theorem processMessage_no_automation_counterexample :
    AutomationService.evaluate (AutomationService.loadRules "g")
        (InboundService.buildMessage
          { channel := .sms, identifierType := .phone, identifierValue := "+81900000001"
            content := some "urgent", contentType := none, senderId := none
            senderName := none, senderAvatar := none, timestamp := none
            externalMessageId := none }
          (mkCustomerFix "c1" [identShared] false) "th1" "m1" "t1")
        (mkCustomerFix "c1" [identShared] false) (mkThreadFix "th1" "c1" .sms .open_) 3 10
      = [{ type := .priority, params := [("level", "high")] },
         { type := .tag, params := [("tag", "urgent")] }] ∧
    InboundService.processMessage
        { customers := [mkCustomerFix "c1" [identShared] false]
          threads := [mkThreadFix "th1" "c1" .sms .open_], messages := [] }
        { channel := .sms, identifierType := .phone, identifierValue := "+81900000001"
          content := some "urgent", contentType := none, senderId := none
          senderName := none, senderAvatar := none, timestamp := none
          externalMessageId := none }
        "cx" "tx" "m1" "t1" (.error "down") ""
      = .ok { customers := [mkCustomerFix "c1" [identShared] false]
              threads := [{ mkThreadFix "th1" "c1" .sms .open_ with
                              lastMessageAt := some "t1"
                              lastMessagePreview := some "urgent"
                              unreadCount := 1, updatedAt := "t1" }]
              messages := [InboundService.buildMessage
                { channel := .sms, identifierType := .phone
                  identifierValue := "+81900000001"
                  content := some "urgent", contentType := none, senderId := none
                  senderName := none, senderAvatar := none, timestamp := none
                  externalMessageId := none }
                (mkCustomerFix "c1" [identShared] false) "th1" "m1" "t1"] } := by
  constructor
  · decide
  · decide

/-- C3 (amended): processMessage never evaluates the Automation Rule Engine
    and applies no tag or priority mutation: whenever it returns ok, every
    customer in the resulting store is either unchanged from the input store
    or the freshly created customer with an empty tag set (and the Thread
    record has no priority field at all for a priority action to land on). -/
theorem processMessage_applies_no_rule_actions
    (st : Store) (raw : RawMessage) (f1 f2 f3 now : String)
    (net : Except String (Option String)) (dg : String) (st' : Store)
    (h : InboundService.processMessage st raw f1 f2 f3 now net dg = .ok st') :
    ∀ c' ∈ st'.customers, c' ∈ st.customers ∨ c'.tags = [] := by
  unfold InboundService.processMessage at h
  cases hcore : InboundService.processMessageCore st raw f1 f2 f3 now with
  | error e =>
      rw [hcore] at h
      exact Except.noConfusion (show (Except.error e : Except String Store) = .ok st' from h)
  | ok mct =>
      obtain ⟨m, c, t, st4⟩ := mct
      rw [hcore] at h
      have h2 : LarkNotificationService.sendMessageNotification st4 m c t net dg now
          = .ok st' := h
      have hfields := sendMessageNotification_ok_fields _ _ _ _ _ _ _ _ h2
      have hmem := processMessageCore_ok_customers _ _ _ _ _ _ _ _ _ _ hcore
      intro c' hc'
      rw [hfields.1] at hc'
      exact hmem c' hc'

/-- C3 witness: the amended theorem applied to the concrete counterexample
    run, at the single customer of the resulting store, showing it is an
    unchanged original record (in particular no tag action touched it). -/
theorem processMessage_applies_no_rule_actions_witness :
    mkCustomerFix "c1" [identShared] false
        ∈ ({ customers := [mkCustomerFix "c1" [identShared] false]
             threads := [mkThreadFix "th1" "c1" .sms .open_]
             messages := [] } : Store).customers
      ∨ (mkCustomerFix "c1" [identShared] false).tags = [] :=
  processMessage_applies_no_rule_actions
    { customers := [mkCustomerFix "c1" [identShared] false]
      threads := [mkThreadFix "th1" "c1" .sms .open_], messages := [] }
    { channel := .sms, identifierType := .phone, identifierValue := "+81900000001"
      content := some "urgent", contentType := none, senderId := none
      senderName := none, senderAvatar := none, timestamp := none
      externalMessageId := none }
    "cx" "tx" "m1" "t1" (.error "down") ""
    { customers := [mkCustomerFix "c1" [identShared] false]
      threads := [{ mkThreadFix "th1" "c1" .sms .open_ with
                      lastMessageAt := some "t1"
                      lastMessagePreview := some "urgent"
                      unreadCount := 1, updatedAt := "t1" }]
      messages := [InboundService.buildMessage
        { channel := .sms, identifierType := .phone
          identifierValue := "+81900000001"
          content := some "urgent", contentType := none, senderId := none
          senderName := none, senderAvatar := none, timestamp := none
          externalMessageId := none }
        (mkCustomerFix "c1" [identShared] false) "th1" "m1" "t1"] }
    (by decide) (mkCustomerFix "c1" [identShared] false) (by decide)

/-- The customer record created by step 1 for an unseen identifier. -/
def InboundNew.customer (raw : RawMessage) (f1 now : String) : Customer :=
  { customerId := f1
    displayName := jsOr raw.senderName "Unknown"
    avatarUrl := raw.senderAvatar
    identifiers := [{ type := raw.identifierType, value := raw.identifierValue
                      channel := raw.channel, verified := true }]
    tags := [], notes := none, isVip := false, createdAt := now, updatedAt := now }

/-- The thread record created by step 2 when no active thread exists. -/
def InboundNew.thread0 (customerId : String) (raw : RawMessage) (f2 now : String) : Thread :=
  { threadId := f2, customerId := customerId, channel := raw.channel
    externalConversationId := raw.externalMessageId, status := .open_
    assignedTo := none, assignedToName := none, larkGroupId := none, larkMessageId := none
    subject := none, lastMessageAt := none, lastMessagePreview := none
    unreadCount := 0, createdAt := now, updatedAt := now }

/-- The message persisted by step 3 on the fresh-identifier path. -/
def InboundNew.message (raw : RawMessage) (f1 f2 f3 now : String) : UnifiedMessage :=
  InboundService.buildMessage raw (InboundNew.customer raw f1 now) f2 f3 now

/-- The thread record as rewritten by ThreadService.updateLastMessage. -/
def updatedThread (t : Thread) (msg : UnifiedMessage) (now : String) : Thread :=
  { t with lastMessageAt := some msg.timestamp
           lastMessagePreview := some (msg.content.take 100)
           unreadCount := if msg.direction = .inbound then t.unreadCount + 1 else t.unreadCount
           updatedAt := now }

/-- The thread record as rewritten by ThreadService.setLarkInfo. -/
def larkedThread (t : Thread) (gid mid now : String) : Thread :=
  { t with larkGroupId := some gid, larkMessageId := some mid, updatedAt := now }

/-- Step 1 returns the stored owner unchanged when the identifier resolves. -/
theorem resolveCustomer_found (st : Store) (raw : RawMessage) (f1 now : String)
    (c : Customer)
    (h : CustomerRepository.findByIdentifier st raw.identifierType raw.identifierValue
      = some c) :
    InboundService.resolveCustomer st raw f1 now = (c, st) := by
  unfold InboundService.resolveCustomer
  rw [h]

/-- Step 1 appends a fresh customer when the identifier is unseen and the
    generated id is unused. -/
theorem resolveCustomer_create (st : Store) (raw : RawMessage) (f1 now : String)
    (hid : CustomerRepository.findByIdentifier st raw.identifierType raw.identifierValue
      = none)
    (hc : st.customers.any (fun x => decide (x.customerId = f1)) = false) :
    InboundService.resolveCustomer st raw f1 now
      = (InboundNew.customer raw f1 now,
         { st with customers := st.customers ++ [InboundNew.customer raw f1 now] }) := by
  unfold InboundService.resolveCustomer CustomerService.create CustomerRepository.save
    InboundNew.customer
  rw [hid]
  dsimp only
  rw [upsertBy_of_any_false hc]

/-- Step 2 returns the stored active thread unchanged when one exists. -/
theorem routeThread_found (st : Store) (cid : String) (raw : RawMessage)
    (f2 now : String) (t : Thread)
    (h : ThreadRepository.findActiveByCustomerAndChannel st cid raw.channel = some t) :
    InboundService.routeThread st cid raw f2 now = (t, st) := by
  unfold InboundService.routeThread
  rw [h]

/-- Step 2 appends a fresh open thread when no active one exists and the
    generated id is unused. -/
theorem routeThread_create (st : Store) (cid : String) (raw : RawMessage)
    (f2 now : String)
    (hact : ThreadRepository.findActiveByCustomerAndChannel st cid raw.channel = none)
    (ht : st.threads.any (fun x => decide (x.threadId = f2)) = false) :
    InboundService.routeThread st cid raw f2 now
      = (InboundNew.thread0 cid raw f2 now,
         { st with threads := st.threads ++ [InboundNew.thread0 cid raw f2 now] }) := by
  unfold InboundService.routeThread ThreadService.create ThreadRepository.save
    InboundNew.thread0
  rw [hact]
  dsimp only
  rw [upsertBy_of_any_false ht]

/-- updateLastMessage on a store whose thread table ends in the addressed
    thread (no earlier row sharing its id) rewrites exactly that last row. -/
theorem updateLastMessage_append (pre : List Thread) (st : Store) (t : Thread)
    (msg : UnifiedMessage) (now : String)
    (hthreads : st.threads = pre ++ [t])
    (hpre : ∀ x ∈ pre, ¬ x.threadId = t.threadId) :
    ThreadService.updateLastMessage st t.threadId msg now
      = .ok { st with threads := pre ++ [updatedThread t msg now] } := by
  have hpre' : ∀ x ∈ pre, (fun y : Thread => decide (y.threadId = t.threadId)) x = false := by
    intro x hx
    simpa using hpre x hx
  have hfind : ThreadRepository.getById st t.threadId = some t := by
    unfold ThreadRepository.getById
    rw [hthreads, find?_append_of_none (List.find?_eq_none.mpr
      (fun x hx => by simpa using hpre x hx))]
    simp [List.find?_cons]
  unfold ThreadService.updateLastMessage
  rw [hfind]
  unfold ThreadRepository.save
  dsimp only
  rw [hthreads]
  rw [upsertBy_append_singleton hpre' (by simp)]
  rfl

/-- setLarkInfo under the same layout rewrites the card ids of the last row. -/
theorem setLarkInfo_append (pre : List Thread) (st : Store) (t : Thread)
    (gid mid now : String)
    (hthreads : st.threads = pre ++ [t])
    (hpre : ∀ x ∈ pre, ¬ x.threadId = t.threadId) :
    ThreadService.setLarkInfo st t.threadId gid mid now
      = .ok { st with threads := pre ++ [larkedThread t gid mid now] } := by
  have hpre' : ∀ x ∈ pre, (fun y : Thread => decide (y.threadId = t.threadId)) x = false := by
    intro x hx
    simpa using hpre x hx
  have hfind : ThreadRepository.getById st t.threadId = some t := by
    unfold ThreadRepository.getById
    rw [hthreads, find?_append_of_none (List.find?_eq_none.mpr
      (fun x hx => by simpa using hpre x hx))]
    simp [List.find?_cons]
  unfold ThreadService.setLarkInfo
  rw [hfind]
  unfold ThreadRepository.save
  dsimp only
  rw [hthreads]
  rw [upsertBy_append_singleton hpre' (by simp)]
  rfl

/-- The notification dispatch, under the same thread-table layout and any
    network outcome, returns ok and rewrites at most the card-correlation
    fields of the last thread row: its id, owner, channel, status and unread
    count are untouched. -/
theorem sendMessageNotification_append (pre : List Thread) (st : Store)
    (m : UnifiedMessage) (c : Customer) (tsnap t : Thread)
    (net : Except String (Option String)) (dg now : String)
    (hthreads : st.threads = pre ++ [t])
    (hpre : ∀ x ∈ pre, ¬ x.threadId = t.threadId)
    (hsnap : tsnap.threadId = t.threadId) :
    ∃ t', LarkNotificationService.sendMessageNotification st m c tsnap net dg now
        = .ok { st with threads := pre ++ [t'] } ∧
      t'.threadId = t.threadId ∧ t'.customerId = t.customerId ∧
      t'.channel = t.channel ∧ t'.status = t.status ∧
      t'.unreadCount = t.unreadCount := by
  have hid : ({ st with threads := pre ++ [t] } : Store) = st := by
    rw [← hthreads]
  unfold LarkNotificationService.sendMessageNotification
  by_cases hg : jsOr tsnap.larkGroupId dg = ""
  · rw [if_pos hg]
    exact ⟨t, by rw [hid], rfl, rfl, rfl, rfl, rfl⟩
  · rw [if_neg hg]
    by_cases hb : (jsTruthy (LarkClient.sendInteractiveCard net).messageId
        && !(jsTruthy tsnap.larkMessageId)) = true
    · rw [if_pos hb, hsnap]
      refine ⟨larkedThread t (jsOr tsnap.larkGroupId dg)
        ((LarkClient.sendInteractiveCard net).messageId.getD "") now,
        setLarkInfo_append pre st t _ _ now hthreads hpre, rfl, rfl, rfl, rfl, rfl⟩
    · rw [if_neg hb]
      exact ⟨t, by rw [hid], rfl, rfl, rfl, rfl, rfl⟩

/-- The four pipeline steps on a previously-unseen identifier with fresh
    generated ids: one customer, one thread (updated to unread count 1) and
    one message are appended, nothing else changes. -/
theorem processMessageCore_create (st : Store) (raw : RawMessage) (f1 f2 f3 now : String)
    (hid : CustomerRepository.findByIdentifier st raw.identifierType raw.identifierValue
      = none)
    (hc : st.customers.any (fun x => decide (x.customerId = f1)) = false)
    (hct : ∀ x ∈ st.threads, ¬ x.customerId = f1)
    (ht : st.threads.any (fun x => decide (x.threadId = f2)) = false)
    (hm : st.messages.any (fun x => decide (x.messageId = f3)) = false) :
    InboundService.processMessageCore st raw f1 f2 f3 now
      = .ok (InboundNew.message raw f1 f2 f3 now,
             InboundNew.customer raw f1 now,
             InboundNew.thread0 f1 raw f2 now,
             { customers := st.customers ++ [InboundNew.customer raw f1 now]
               threads := st.threads
                 ++ [updatedThread (InboundNew.thread0 f1 raw f2 now)
                      (InboundNew.message raw f1 f2 f3 now) now]
               messages := st.messages ++ [InboundNew.message raw f1 f2 f3 now] }) := by
  have h1 := resolveCustomer_create st raw f1 now hid hc
  have hact : ThreadRepository.findActiveByCustomerAndChannel
      { st with customers := st.customers ++ [InboundNew.customer raw f1 now] }
      (InboundNew.customer raw f1 now).customerId raw.channel = none := by
    unfold ThreadRepository.findActiveByCustomerAndChannel
    rw [List.find?_eq_none]
    intro x hx
    simp only [InboundNew.customer, decide_eq_true_eq, not_and]
    intro hcid
    exact absurd hcid (hct x hx)
  have h2 := routeThread_create
    { st with customers := st.customers ++ [InboundNew.customer raw f1 now] }
    (InboundNew.customer raw f1 now).customerId raw f2 now hact ht
  have hm' : st.messages.any (fun x => decide (x.messageId
      = (InboundService.buildMessage raw (InboundNew.customer raw f1 now)
          (InboundNew.thread0 (InboundNew.customer raw f1 now).customerId raw f2 now).threadId
          f3 now).messageId)) = false := hm
  have h4 := updateLastMessage_append st.threads
    { customers := st.customers ++ [InboundNew.customer raw f1 now]
      threads := st.threads
        ++ [InboundNew.thread0 (InboundNew.customer raw f1 now).customerId raw f2 now]
      messages := st.messages
        ++ [InboundService.buildMessage raw (InboundNew.customer raw f1 now)
             (InboundNew.thread0 (InboundNew.customer raw f1 now).customerId raw f2 now).threadId
             f3 now] }
    (InboundNew.thread0 (InboundNew.customer raw f1 now).customerId raw f2 now)
    (InboundService.buildMessage raw (InboundNew.customer raw f1 now)
      (InboundNew.thread0 (InboundNew.customer raw f1 now).customerId raw f2 now).threadId
      f3 now)
    now rfl
    (fun x hx => show ¬ x.threadId = f2 by
      simpa using List.any_eq_false.mp ht x hx)
  simp only [InboundService.processMessageCore]
  rw [h1]
  dsimp only
  rw [h2]
  dsimp only
  unfold MessageService.store MessageRepository.save
  dsimp only
  rw [upsertBy_of_any_false hm']
  rw [h4]
  rfl

/-- A full first inbound message on an unseen identifier: processMessage
    succeeds, appends exactly the new customer and the new message, and
    appends exactly one thread whose id, owner, channel, open status and
    unread count 1 are as created (its Lark card ids may have been filled by
    the notification step). -/
theorem processMessage_first_inbound (st : Store) (raw : RawMessage)
    (f1 f2 f3 now : String) (net : Except String (Option String)) (dg : String)
    (hid : CustomerRepository.findByIdentifier st raw.identifierType raw.identifierValue
      = none)
    (hc : st.customers.any (fun x => decide (x.customerId = f1)) = false)
    (hct : ∀ x ∈ st.threads, ¬ x.customerId = f1)
    (ht : st.threads.any (fun x => decide (x.threadId = f2)) = false)
    (hm : st.messages.any (fun x => decide (x.messageId = f3)) = false) :
    ∃ t1, InboundService.processMessage st raw f1 f2 f3 now net dg
        = .ok { customers := st.customers ++ [InboundNew.customer raw f1 now]
                threads := st.threads ++ [t1]
                messages := st.messages ++ [InboundNew.message raw f1 f2 f3 now] } ∧
      t1.threadId = f2 ∧ t1.customerId = f1 ∧ t1.channel = raw.channel ∧
      t1.status = .open_ ∧ t1.unreadCount = 1 := by
  have hcore := processMessageCore_create st raw f1 f2 f3 now hid hc hct ht hm
  obtain ⟨t', hsend, hth, hcid, hch, hst, hun⟩ := sendMessageNotification_append
    st.threads
    { customers := st.customers ++ [InboundNew.customer raw f1 now]
      threads := st.threads
        ++ [updatedThread (InboundNew.thread0 f1 raw f2 now)
             (InboundNew.message raw f1 f2 f3 now) now]
      messages := st.messages ++ [InboundNew.message raw f1 f2 f3 now] }
    (InboundNew.message raw f1 f2 f3 now)
    (InboundNew.customer raw f1 now)
    (InboundNew.thread0 f1 raw f2 now)
    (updatedThread (InboundNew.thread0 f1 raw f2 now)
      (InboundNew.message raw f1 f2 f3 now) now)
    net dg now rfl
    (fun x hx => show ¬ x.threadId = f2 by
      simpa using List.any_eq_false.mp ht x hx)
    rfl
  refine ⟨t', ?_, hth.trans rfl, hcid.trans rfl, hch.trans rfl, hst.trans rfl,
    hun.trans rfl⟩
  unfold InboundService.processMessage
  rw [hcore]
  exact hsend

/-- An inbound message whose identifier resolves to a stored customer that
    owns exactly one active thread (stored last, no duplicate ids): no
    customer or thread is created, the message is appended, and the active
    unread count of that thread is incremented by one. -/
theorem processMessage_repeat_inbound (st : Store) (raw : RawMessage) (cust : Customer)
    (pre : List Thread) (t : Thread) (f1b f2b f3b now2 : String)
    (net2 : Except String (Option String)) (dg : String)
    (hfound : CustomerRepository.findByIdentifier st raw.identifierType raw.identifierValue
      = some cust)
    (hthreads : st.threads = pre ++ [t])
    (hpreact : ∀ x ∈ pre,
      ¬(x.customerId = cust.customerId ∧ x.channel = raw.channel
        ∧ x.status ≠ ThreadStatus.closed))
    (hpreid : ∀ x ∈ pre, ¬ x.threadId = t.threadId)
    (hcid : t.customerId = cust.customerId) (hch : t.channel = raw.channel)
    (hstat : t.status ≠ ThreadStatus.closed)
    (hmsg : st.messages.any (fun x => decide (x.messageId = f3b)) = false) :
    ∃ t2, InboundService.processMessage st raw f1b f2b f3b now2 net2 dg
        = .ok { customers := st.customers
                threads := pre ++ [t2]
                messages := st.messages
                  ++ [InboundService.buildMessage raw cust t.threadId f3b now2] } ∧
      t2.threadId = t.threadId ∧ t2.unreadCount = t.unreadCount + 1 ∧
      t2.customerId = t.customerId ∧ t2.channel = t.channel ∧ t2.status = t.status := by
  have hact : ThreadRepository.findActiveByCustomerAndChannel st cust.customerId raw.channel
      = some t := by
    unfold ThreadRepository.findActiveByCustomerAndChannel
    rw [hthreads]
    rw [find?_append_of_none (List.find?_eq_none.mpr
      (fun x hx => by simpa using hpreact x hx))]
    simp [List.find?_cons, hcid, hch, hstat]
  have h1 := resolveCustomer_found st raw f1b now2 cust hfound
  have h2 := routeThread_found st cust.customerId raw f2b now2 t hact
  have hmsg' : st.messages.any (fun x => decide (x.messageId
      = (InboundService.buildMessage raw cust t.threadId f3b now2).messageId)) = false := hmsg
  have h4 := updateLastMessage_append pre
    { customers := st.customers
      threads := st.threads
      messages := st.messages
        ++ [InboundService.buildMessage raw cust t.threadId f3b now2] }
    t (InboundService.buildMessage raw cust t.threadId f3b now2) now2 hthreads hpreid
  obtain ⟨t2, hsend, hth, hcid2, hch2, hst2, hun2⟩ := sendMessageNotification_append
    pre
    { customers := st.customers
      threads := pre
        ++ [updatedThread t (InboundService.buildMessage raw cust t.threadId f3b now2) now2]
      messages := st.messages
        ++ [InboundService.buildMessage raw cust t.threadId f3b now2] }
    (InboundService.buildMessage raw cust t.threadId f3b now2)
    cust t
    (updatedThread t (InboundService.buildMessage raw cust t.threadId f3b now2) now2)
    net2 dg now2 rfl
    (fun x hx => hpreid x hx)
    rfl
  refine ⟨t2, ?_, hth.trans rfl, hun2.trans rfl, hcid2.trans rfl, hch2.trans rfl,
    hst2.trans rfl⟩
  simp only [InboundService.processMessage, InboundService.processMessageCore]
  rw [h1]
  try dsimp only
  rw [h2]
  try dsimp only
  unfold MessageService.store MessageRepository.save
  try dsimp only
  rw [upsertBy_of_any_false hmsg']
  rw [h4]
  exact hsend

/-- C1 (confirmed): an inbound message whose identifier matches no stored
    customer creates exactly one Customer (isVip false, empty tags, one
    verified identifier), one Thread (open, unread count 1 after the update)
    and one inbound delivered UnifiedMessage; a second message with the same
    identifier and channel, sent while that thread is still open, creates no
    new customer and no new thread, appends a second message and leaves the
    unread count of the thread at 2.  The freshness hypotheses mirror uuid
    generation; the Lark network outcomes are arbitrary. -/
theorem processMessage_new_identifier_then_repeat
    (st : Store) (raw raw2 : RawMessage)
    (f1 f2 f3 f1b f2b f3b now now2 dg : String)
    (net net2 : Except String (Option String))
    (hid : CustomerRepository.findByIdentifier st raw.identifierType raw.identifierValue
      = none)
    (hc : ∀ x ∈ st.customers, ¬ x.customerId = f1)
    (hct : ∀ x ∈ st.threads, ¬ x.customerId = f1)
    (ht : ∀ x ∈ st.threads, ¬ x.threadId = f2)
    (hm : ∀ x ∈ st.messages, ¬ x.messageId = f3)
    (hm2 : ∀ x ∈ st.messages, ¬ x.messageId = f3b)
    (hne : ¬ f3b = f3)
    (h2ty : raw2.identifierType = raw.identifierType)
    (h2v : raw2.identifierValue = raw.identifierValue)
    (h2ch : raw2.channel = raw.channel) :
    ∃ t1 t2,
      InboundService.processMessage st raw f1 f2 f3 now net dg
        = .ok { customers := st.customers ++ [InboundNew.customer raw f1 now]
                threads := st.threads ++ [t1]
                messages := st.messages ++ [InboundNew.message raw f1 f2 f3 now] } ∧
      (InboundNew.customer raw f1 now).isVip = false ∧
      (InboundNew.customer raw f1 now).tags = [] ∧
      (InboundNew.customer raw f1 now).identifiers
        = [{ type := raw.identifierType, value := raw.identifierValue
             channel := raw.channel, verified := true }] ∧
      t1.status = .open_ ∧ t1.unreadCount = 1 ∧ t1.threadId = f2 ∧
      t1.customerId = (InboundNew.customer raw f1 now).customerId ∧
      t1.channel = raw.channel ∧
      (InboundNew.message raw f1 f2 f3 now).direction = .inbound ∧
      (InboundNew.message raw f1 f2 f3 now).status = .delivered ∧
      InboundService.processMessage
          { customers := st.customers ++ [InboundNew.customer raw f1 now]
            threads := st.threads ++ [t1]
            messages := st.messages ++ [InboundNew.message raw f1 f2 f3 now] }
          raw2 f1b f2b f3b now2 net2 dg
        = .ok { customers := st.customers ++ [InboundNew.customer raw f1 now]
                threads := st.threads ++ [t2]
                messages := (st.messages ++ [InboundNew.message raw f1 f2 f3 now])
                  ++ [InboundService.buildMessage raw2 (InboundNew.customer raw f1 now)
                       t1.threadId f3b now2] } ∧
      t2.threadId = t1.threadId ∧ t2.unreadCount = 2 := by
  have hcB : st.customers.any (fun x => decide (x.customerId = f1)) = false :=
    List.any_eq_false.mpr (fun x hx => by simpa using hc x hx)
  have htB : st.threads.any (fun x => decide (x.threadId = f2)) = false :=
    List.any_eq_false.mpr (fun x hx => by simpa using ht x hx)
  have hmB : st.messages.any (fun x => decide (x.messageId = f3)) = false :=
    List.any_eq_false.mpr (fun x hx => by simpa using hm x hx)
  obtain ⟨t1, heq1, hth1, hcid1, hch1, hst1, hun1⟩ :=
    processMessage_first_inbound st raw f1 f2 f3 now net dg hid hcB hct htB hmB
  have hid' : st.customers.find?
      (fun c => c.identifiers.any
        (fun i => decide (i.type = raw.identifierType ∧ i.value = raw.identifierValue)))
      = none := hid
  have hfound2 : CustomerRepository.findByIdentifier
      { customers := st.customers ++ [InboundNew.customer raw f1 now]
        threads := st.threads ++ [t1]
        messages := st.messages ++ [InboundNew.message raw f1 f2 f3 now] }
      raw2.identifierType raw2.identifierValue
      = some (InboundNew.customer raw f1 now) := by
    unfold CustomerRepository.findByIdentifier
    dsimp only
    rw [h2ty, h2v]
    rw [find?_append_of_none hid']
    simp [List.find?_cons, InboundNew.customer]
  have hprea2 : ∀ x ∈ st.threads,
      ¬(x.customerId = (InboundNew.customer raw f1 now).customerId
        ∧ x.channel = raw2.channel ∧ x.status ≠ ThreadStatus.closed) := by
    intro x hx hand
    exact hct x hx (by simpa [InboundNew.customer] using hand.1)
  have hpreid2 : ∀ x ∈ st.threads, ¬ x.threadId = t1.threadId := by
    intro x hx
    rw [hth1]
    exact ht x hx
  have hmsg2 : (st.messages ++ [InboundNew.message raw f1 f2 f3 now]).any
      (fun x => decide (x.messageId = f3b)) = false := by
    rw [List.any_append]
    have hA : st.messages.any (fun x => decide (x.messageId = f3b)) = false :=
      List.any_eq_false.mpr (fun x hx => by simpa using hm2 x hx)
    have hB : (InboundNew.message raw f1 f2 f3 now).messageId = f3 := rfl
    simp [hA, hB]
    exact fun hx => hne hx.symm
  obtain ⟨t2, heq2, hth2, hun2, _, _, _⟩ := processMessage_repeat_inbound
    { customers := st.customers ++ [InboundNew.customer raw f1 now]
      threads := st.threads ++ [t1]
      messages := st.messages ++ [InboundNew.message raw f1 f2 f3 now] }
    raw2 (InboundNew.customer raw f1 now) st.threads t1 f1b f2b f3b now2 net2 dg
    hfound2 rfl hprea2 hpreid2
    (hcid1.trans rfl)
    (hch1.trans h2ch.symm)
    (by rw [hst1]; decide)
    hmsg2
  exact ⟨t1, t2, heq1, rfl, rfl, rfl, hst1, hun1, hth1, hcid1.trans rfl, hch1, rfl, rfl,
    heq2, hth2, hun2.trans (by rw [hun1])⟩

/-- C1 witness: the two-call theorem applied to the empty store with the
    scenario-1 sms message and a repeat from the same phone identifier. -/
theorem processMessage_new_identifier_then_repeat_witness :
    ∃ t1 t2,
      InboundService.processMessage { customers := [], threads := [], messages := [] }
          { channel := .sms, identifierType := .phone, identifierValue := "+81900000001"
            content := some "hello", contentType := none, senderId := none
            senderName := none, senderAvatar := none, timestamp := none
            externalMessageId := none }
          "c1" "th1" "m1" "t1" (.error "e") ""
        = .ok { customers := [] ++ [InboundNew.customer
                  { channel := .sms, identifierType := .phone
                    identifierValue := "+81900000001"
                    content := some "hello", contentType := none, senderId := none
                    senderName := none, senderAvatar := none, timestamp := none
                    externalMessageId := none } "c1" "t1"]
                threads := [] ++ [t1]
                messages := [] ++ [InboundNew.message
                  { channel := .sms, identifierType := .phone
                    identifierValue := "+81900000001"
                    content := some "hello", contentType := none, senderId := none
                    senderName := none, senderAvatar := none, timestamp := none
                    externalMessageId := none } "c1" "th1" "m1" "t1"] } ∧
      (InboundNew.customer
        { channel := .sms, identifierType := .phone, identifierValue := "+81900000001"
          content := some "hello", contentType := none, senderId := none
          senderName := none, senderAvatar := none, timestamp := none
          externalMessageId := none } "c1" "t1").isVip = false ∧
      (InboundNew.customer
        { channel := .sms, identifierType := .phone, identifierValue := "+81900000001"
          content := some "hello", contentType := none, senderId := none
          senderName := none, senderAvatar := none, timestamp := none
          externalMessageId := none } "c1" "t1").tags = [] ∧
      (InboundNew.customer
        { channel := .sms, identifierType := .phone, identifierValue := "+81900000001"
          content := some "hello", contentType := none, senderId := none
          senderName := none, senderAvatar := none, timestamp := none
          externalMessageId := none } "c1" "t1").identifiers
        = [{ type := .phone, value := "+81900000001", channel := .sms, verified := true }] ∧
      t1.status = .open_ ∧ t1.unreadCount = 1 ∧ t1.threadId = "th1" ∧
      t1.customerId = (InboundNew.customer
        { channel := .sms, identifierType := .phone, identifierValue := "+81900000001"
          content := some "hello", contentType := none, senderId := none
          senderName := none, senderAvatar := none, timestamp := none
          externalMessageId := none } "c1" "t1").customerId ∧
      t1.channel = .sms ∧
      (InboundNew.message
        { channel := .sms, identifierType := .phone, identifierValue := "+81900000001"
          content := some "hello", contentType := none, senderId := none
          senderName := none, senderAvatar := none, timestamp := none
          externalMessageId := none } "c1" "th1" "m1" "t1").direction = .inbound ∧
      (InboundNew.message
        { channel := .sms, identifierType := .phone, identifierValue := "+81900000001"
          content := some "hello", contentType := none, senderId := none
          senderName := none, senderAvatar := none, timestamp := none
          externalMessageId := none } "c1" "th1" "m1" "t1").status = .delivered ∧
      InboundService.processMessage
          { customers := [] ++ [InboundNew.customer
              { channel := .sms, identifierType := .phone
                identifierValue := "+81900000001"
                content := some "hello", contentType := none, senderId := none
                senderName := none, senderAvatar := none, timestamp := none
                externalMessageId := none } "c1" "t1"]
            threads := [] ++ [t1]
            messages := [] ++ [InboundNew.message
              { channel := .sms, identifierType := .phone
                identifierValue := "+81900000001"
                content := some "hello", contentType := none, senderId := none
                senderName := none, senderAvatar := none, timestamp := none
                externalMessageId := none } "c1" "th1" "m1" "t1"] }
          { channel := .sms, identifierType := .phone, identifierValue := "+81900000001"
            content := some "again", contentType := none, senderId := none
            senderName := none, senderAvatar := none, timestamp := none
            externalMessageId := none }
          "c2" "th2" "m2" "t2" (.error "e2") ""
        = .ok { customers := [] ++ [InboundNew.customer
                  { channel := .sms, identifierType := .phone
                    identifierValue := "+81900000001"
                    content := some "hello", contentType := none, senderId := none
                    senderName := none, senderAvatar := none, timestamp := none
                    externalMessageId := none } "c1" "t1"]
                threads := [] ++ [t2]
                messages := ([] ++ [InboundNew.message
                  { channel := .sms, identifierType := .phone
                    identifierValue := "+81900000001"
                    content := some "hello", contentType := none, senderId := none
                    senderName := none, senderAvatar := none, timestamp := none
                    externalMessageId := none } "c1" "th1" "m1" "t1"])
                  ++ [InboundService.buildMessage
                    { channel := .sms, identifierType := .phone
                      identifierValue := "+81900000001"
                      content := some "again", contentType := none, senderId := none
                      senderName := none, senderAvatar := none, timestamp := none
                      externalMessageId := none }
                    (InboundNew.customer
                      { channel := .sms, identifierType := .phone
                        identifierValue := "+81900000001"
                        content := some "hello", contentType := none, senderId := none
                        senderName := none, senderAvatar := none, timestamp := none
                        externalMessageId := none } "c1" "t1")
                    t1.threadId "m2" "t2"] } ∧
      t2.threadId = t1.threadId ∧ t2.unreadCount = 2 :=
  processMessage_new_identifier_then_repeat
    { customers := [], threads := [], messages := [] }
    { channel := .sms, identifierType := .phone, identifierValue := "+81900000001"
      content := some "hello", contentType := none, senderId := none
      senderName := none, senderAvatar := none, timestamp := none
      externalMessageId := none }
    { channel := .sms, identifierType := .phone, identifierValue := "+81900000001"
      content := some "again", contentType := none, senderId := none
      senderName := none, senderAvatar := none, timestamp := none
      externalMessageId := none }
    "c1" "th1" "m1" "c2" "th2" "m2" "t1" "t2" "" (.error "e") (.error "e2")
    (by decide) (by simp) (by simp) (by simp) (by simp) (by simp) (by decide)
    rfl rfl rfl

end CommTool

